import Mathlib

/-!
Verification development for the QSAN SANOS4 Zabbix polling client
(`qsan.py`).  The client logs into a storage array's management web
interface, discovers volumes / disks / cache pools / FC ports from
tag-structured responses, and retrieves per-entity performance counters,
lazily enabling array-side monitoring for entities that are not yet
monitored.

This file shallowly embeds the parts of `qsan.py` that the verified
properties are about:

* parsed response documents are modelled as a tree of named tags and
  text nodes, with BeautifulSoup's recursive `find` / `find_all`,
  `.text` concatenation and tag truthiness (a tag is falsy when it has
  no children);
* Python dicts keyed by strings are modelled as association lists with
  insert-or-overwrite update (preserving insertion order), which is
  exactly Python's observable dict behaviour for these programs;
* Python exceptions (AttributeError on `None.attr`, KeyError on a
  missing dict key, ValueError from `int()` / `float()`,
  ZeroDivisionError, TypeError on `None[...]` and `'x' in None`) are
  modelled with `Except PyErr`;
* the HTTP layer is a parameter: every operation receives the parsed
  document(s) it would fetch, or a transport error.
-/

set_option autoImplicit false

namespace Qsan

/-- Python runtime faults that the embedded code can raise. -/
inductive PyErr where
  | transport (msg : String)
  | attrError
  | keyError (k : String)
  | valueError
  | typeError
  | zeroDivision
  deriving Repr, DecidableEq

instance {ε α : Type} [DecidableEq ε] [DecidableEq α] : DecidableEq (Except ε α) := fun a b =>
  match a, b with
  | .ok x, .ok y =>
      if h : x = y then isTrue (congrArg _ h)
      else isFalse (fun c => h (Except.ok.inj c))
  | .error x, .error y =>
      if h : x = y then isTrue (congrArg _ h)
      else isFalse (fun c => h (Except.error.inj c))
  | .ok _, .error _ => isFalse (fun c => Except.noConfusion c)
  | .error _, .ok _ => isFalse (fun c => Except.noConfusion c)

/-- A parsed markup node: a named tag with children, or a text node.
Models the BeautifulSoup element tree of a fetched response. -/
inductive Node where
  | tag (name : String) (children : List Node)
  | text (s : String)
  deriving Repr, BEq

/-- bs4 `.text`: concatenation of every descendant string, in document
order. -/
def nodeText : Node → String
  | .text s => s
  | .tag _ cs => nodeTextList cs
where
  nodeTextList : List Node → String
    | [] => ""
    | c :: cs => nodeText c ++ nodeTextList cs

/-- bs4 truthiness: a tag is truthy iff it has at least one child
(`Tag.__len__` counts `contents`); a string is truthy iff nonempty. -/
def truthy : Node → Bool
  | .tag _ cs => !cs.isEmpty
  | .text s => !s.isEmpty

/-- bs4 `find_all(name)` over one subtree: the node itself when its
tag name matches, then the matches among its descendants, in document
(preorder) order. -/
def findAllNode (nm : String) : Node → List Node
  | .text _ => []
  | .tag t cc => (if t = nm then [Node.tag t cc] else []) ++ findAllList nm cc
where
  /-- bs4 `find_all(name)` over a list of sibling subtrees. -/
  findAllList (nm : String) : List Node → List Node
    | [] => []
    | c :: cs => findAllNode nm c ++ findAllList nm cs

/-- bs4 `find_all(name)` over a list of sibling subtrees. -/
abbrev findAllList := findAllNode.findAllList

/-- bs4 `node.find_all(name)`: searches descendants of `n` (not `n`
itself). -/
def Node.findAll (n : Node) (nm : String) : List Node :=
  match n with
  | .text _ => []
  | .tag _ cc => findAllList nm cc

/-- bs4 `node.find(name)` (also attribute access `node.name`): first
matching descendant, or `none`. -/
def Node.findTag (n : Node) (nm : String) : Option Node :=
  (n.findAll nm).head?

/-- Python dict `d[k] = v`: overwrite in place if the key exists
(keeping its position), else append.  Keys therefore stay distinct. -/
def dictUpdate {α : Type} [DecidableEq α] {β : Type} :
    List (α × β) → α → β → List (α × β)
  | [], k, v => [(k, v)]
  | (k', v') :: rest, k, v =>
      if k' = k then (k, v) :: rest else (k', v') :: dictUpdate rest k v

/-- Python dict `d.get(k)`: first (only) binding of `k`, or `none`. -/
def dictGet {α : Type} [DecidableEq α] {β : Type} (d : List (α × β)) (k : α) : Option β :=
  (d.find? (fun p => p.1 = k)).map (·.2)

/-- Python dict `d.pop(k, None)` (value discarded): remove the binding
of `k` if present. -/
def dictPop {α : Type} [DecidableEq α] {β : Type} (d : List (α × β)) (k : α) : List (α × β) :=
  d.filter (fun p => ¬ p.1 = k)

/-- Python `d[k]`: KeyError when absent. -/
def dictGetE {β : Type} (d : List (String × β)) (k : String) : Except PyErr β :=
  match dictGet d k with
  | some v => .ok v
  | none => .error (.keyError k)

/-- Attribute dict built by the `for attr in rec: if attr.name:
attrs[attr.name] = attr.text` loops: named direct children become
string bindings, text children are skipped. -/
def childAttrs (n : Node) : List (String × String) :=
  match n with
  | .text _ => []
  | .tag _ cs =>
      cs.foldl
        (fun acc c =>
          match c with
          | .tag t cc => dictUpdate acc t (nodeText (.tag t cc))
          | .text _ => acc)
        []

/-- `node.find(nm).text`: AttributeError when `find` returns `None`. -/
def findTextE (n : Node) (nm : String) : Except PyErr String :=
  match n.findTag nm with
  | some t => .ok (nodeText t)
  | none => .error .attrError

/-- `self._soup.response` followed by a member access: AttributeError
when the document has no `response` element. -/
def getResponse (doc : Node) : Except PyErr Node :=
  match doc.findTag "response" with
  | some r => .ok r
  | none => .error .attrError

/-- Strip leading and trailing whitespace from a character list
(Python `str.strip()`, as applied by `int()`/`float()`). -/
def trimChars (l : List Char) : List Char :=
  ((l.dropWhile Char.isWhitespace).reverse.dropWhile Char.isWhitespace).reverse

/-- Parse a nonempty all-digit character list as a natural number. -/
def digitsToNat (ds : List Char) : Option Nat :=
  if ds.isEmpty then none
  else if ds.all Char.isDigit then
    some (ds.foldl (fun n c => n * 10 + (c.toNat - 48)) 0)
  else none

/-- Python `int(s)` on a string: optional surrounding whitespace,
optional sign, decimal digits; `none` models ValueError. -/
def pyInt (s : String) : Option Int :=
  match trimChars s.toList with
  | '-' :: ds => (digitsToNat ds).map (fun n => -(n : Int))
  | '+' :: ds => (digitsToNat ds).map (fun n => (n : Int))
  | ds => (digitsToNat ds).map (fun n => (n : Int))

/-- `int(s)` raising ValueError. -/
def intE (s : String) : Except PyErr Int :=
  match pyInt s with
  | some n => .ok n
  | none => .error .valueError

/-- Parse an unsigned decimal literal (digits with an optional single
point) as an exact rational. -/
def decimalToRat (body : List Char) : Option ℚ :=
  match body.splitOn '.' with
  | [a] =>
      match digitsToNat a with
      | some n => some ((n : ℚ))
      | none => none
  | [a, b] =>
      match digitsToNat (a ++ b) with
      | some n => some ((n : ℚ) / ((10 : ℚ) ^ b.length))
      | none => none
  | _ => none

/-- Python `float(s)` restricted to plain decimal literals (the only
form the array emits): optional sign, digits with an optional single
decimal point.  Exact rational value; `none` models ValueError. -/
def pyFloat (s : String) : Option ℚ :=
  match trimChars s.toList with
  | '-' :: body => (decimalToRat body).map (fun q => -q)
  | '+' :: body => decimalToRat body
  | body => decimalToRat body

/-- `float(s)` raising ValueError. -/
def floatE (s : String) : Except PyErr ℚ :=
  match pyFloat s with
  | some q => .ok q
  | none => .error .valueError

/-- Python `int(x)` on a float: truncation toward zero. -/
def pyTrunc (q : ℚ) : Int :=
  if 0 ≤ q then ⌊q⌋ else ⌈q⌉

/-- Python `s.replace(pat, rep)` for a one-character pattern (the only
patterns the source uses are `' '` and `','`): replace every
occurrence of `pat` by `rep`. -/
def pyReplaceChar (s : String) (pat : Char) (rep : String) : String :=
  String.mk
    (s.toList.foldr
      (fun c acc => if c = pat then rep.toList ++ acc else c :: acc) [])

/-- Python `round(hit / (tot / 100))` evaluated in exact arithmetic
for `tot ≠ 0`: round half to even of the rational `100 * hit / tot`
(the source computes this in floating point; all values the theorems
touch are exact in both). -/
def pyRoundRatio (hit tot : Int) : Int :=
  let p := if tot < 0 then -(100 * hit) else 100 * hit
  let q := if tot < 0 then -tot else tot
  let fl := p.fdiv q
  let r := p - fl * q
  if 2 * r < q then fl
  else if q < 2 * r then fl + 1
  else if fl % 2 = 0 then fl else fl + 1

/-- Python string slice `s[a:b]` (for `a ≤ b`): never raises, empty
when out of range. -/
def strSlice (s : String) (a b : Nat) : String :=
  String.mk ((s.toList.drop a).take (b - a))

/-- Lexicographic comparison of character lists by code point. -/
def lexLe : List Char → List Char → Bool
  | [], _ => true
  | _ :: _, [] => false
  | a :: as, b :: bs =>
      if a.toNat < b.toNat then true
      else if b.toNat < a.toNat then false
      else lexLe as bs

/-- Python string `<=`: lexicographic by code point. -/
def strLe (a b : String) : Bool :=
  lexLe a.toList b.toList

/-- Insert into an ascending list, after any equal elements. -/
def insertSorted (x : String) : List String → List String
  | [] => [x]
  | y :: ys => if strLe y x then y :: insertSorted x ys else x :: y :: ys

/-- Python `list.sort()` on strings: ascending sort by the lexicographic
order on code points (insertion sort; the order is total, so the result
agrees with any sorting algorithm). -/
def sortStrings : List String → List String
  | [] => []
  | x :: xs => insertSorted x (sortStrings xs)

/-- Python `set(a) == set(b)`. -/
def listSetEq {α : Type} [BEq α] (a b : List α) : Bool :=
  a.all (fun x => b.contains x) && b.all (fun x => a.contains x)

/-- An entity record: attribute name to string value (`qsan.py` §3). -/
abbrev Attrs := List (String × String)

/-- A discovery table: entity id to attribute record. -/
abbrev SDict := List (String × Attrs)

instance : DecidableEq (Nat × SDict × Int) := fun a b => instDecidableEqProd a b

/-- The four discovery tables held by a `QSAN` instance
(`self._VDs`, `self._DISKs`, `self._CPs`, `self._FCs`). -/
structure Tables where
  VDs : SDict
  DISKs : SDict
  CPs : SDict
  FCs : SDict
  deriving Repr, DecidableEq

/-- One enable-monitoring HTTP request issued by a stats routine:
either a single batched POST carrying a comma-joined list
(`volume_arr` / `slot_arr` / `fibre_arr`), or one SANOS3 per-port POST
carrying `ctrl_idx` and `port_idx`. -/
inductive Request where
  | batch (payload : List String)
  | single (ctrlIdx portIdx : String)
  deriving Repr, DecidableEq

/-- Observable outcome of one stats poll: returned counters, the list
of entity keys seen as monitoring-enabled (`*_monitoring_check`), and
the trace of enable-monitoring requests issued. -/
structure Run (κ : Type) where
  stats : List (κ × Attrs)
  checked : List κ
  reqs : List Request
  deriving Repr, DecidableEq

/-- Result of the fuel-instrumented `vd_discovery` page loop: normal
return, propagated exception, or fuel exhausted (the source loop is
`while True` and may not terminate). -/
inductive DResult (α : Type) where
  | ok (a : α)
  | err (e : PyErr)
  | fuelOut
  deriving Repr, DecidableEq

/-! ### `QSAN.storage_stats` -/

/-- The body of `storage_stats` once the `response` root is at hand:
returns `{}` when the `controller` element is absent or falsy (the
SANOS3 signal); otherwise reads `iops`/`tx`/`rx`, strips comma
thousands separators, renames `tx`/`rx` to `read`/`write` and converts
MiB to bytes via `int(float(x) * 1048576)`. -/
def storage_stats_body (resp : Node) : Except PyErr Attrs :=
  match resp.findTag "controller" with
  | none => .ok []
  | some c =>
      if !truthy c then .ok []
      else do
        let iops0 ← findTextE resp "iops"
        let iops := pyReplaceChar iops0 ',' ""
        let tx0 ← findTextE resp "tx"
        let tx := pyReplaceChar tx0 ',' ""
        let rx0 ← findTextE resp "rx"
        let rx := pyReplaceChar rx0 ',' ""
        let rq ← floatE tx
        let wq ← floatE rx
        .ok [("iops", iops),
             ("read", toString (pyTrunc (rq * 1048576))),
             ("write", toString (pyTrunc (wq * 1048576)))]

/-- `storage_stats`: dashboard stats.  `self._soup.response.controller`
raises AttributeError when the document has no `response` element. -/
def storage_stats (doc : Node) : Except PyErr Attrs :=
  match doc.findTag "response" with
  | none => .error .attrError
  | some resp => storage_stats_body resp

/-! ### `QSAN.vd_discovery` -/

/-- `int(self._soup.response.find('vd_num').text)` given the `response`
element. -/
def vdNumIn (resp : Node) : Except PyErr Int := do
  let t ← findTextE resp "vd_num"
  intE t

/-- The array-reported volume total of one page response. -/
def vdNumOf (doc : Node) : Except PyErr Int := do
  let r ← getResponse doc
  vdNumIn r

/-- Body of the `for udv in ...find_all('udv')` loop: a truthy record
contributes its attributes (with `id` popped) under its `id` text; a
record with no children advances the page counter instead. -/
def vdRecord (acc : Nat × SDict) (udv : Node) : Except PyErr (Nat × SDict) :=
  if truthy udv then do
    let attrs := dictPop (childAttrs udv) "id"
    let idt ← findTextE udv "id"
    .ok (acc.1, dictUpdate acc.2 idt attrs)
  else
    .ok (acc.1 + 1, acc.2)

/-- One iteration body of the `while True` pagination loop: read the
reported total, process every `udv` record, return the (possibly
advanced) page number, the accumulated table and the reported total. -/
def vdPage (doc : Node) (page : Nat) (acc : SDict) : Except PyErr (Nat × SDict × Int) := do
  let resp ← getResponse doc
  let cnt ← vdNumIn resp
  let pa ← (resp.findAll "udv").foldlM vdRecord (page, acc)
  .ok (pa.1, pa.2, cnt)

/-- The `while True` pagination loop of `vd_discovery`, instrumented
with fuel.  `fetch i p` is the parsed response of the `i`-th HTTP GET,
which requests page `p` (indexing by request lets the server answer
repeated requests for the same page arbitrarily).  The loop exits
normally exactly when `len(VDs) == VD_count`. -/
def vdLoop (fetch : Nat → Nat → Except PyErr Node) :
    Nat → Nat → Nat → SDict → DResult SDict
  | 0, _, _, _ => .fuelOut
  | fuel + 1, iter, page, acc =>
    match fetch iter page with
    | .error e => .err e
    | .ok doc =>
      match vdPage doc page acc with
      | .error e => .err e
      | .ok (page', acc', cnt) =>
        if (acc'.length : Int) = cnt then .ok acc'
        else vdLoop fetch fuel (iter + 1) page' acc'

/-- `vd_discovery`: runs the page loop on a local `VDs = {}` and only
assigns `self._VDs` after the loop finishes; an exception propagates
with every table untouched. -/
def vd_discovery (fetch : Nat → Nat → Except PyErr Node) (fuel : Nat)
    (st : Tables) : DResult Unit × Tables :=
  match vdLoop fetch fuel 0 1 [] with
  | .ok vds => (.ok (), { st with VDs := vds })
  | .err e => (.err e, st)
  | .fuelOut => (.fuelOut, st)

/-! ### `QSAN.disk_discovery` -/

/-- `disk_discovery` body: single fetch, collect every truthy `hdd`
record keyed by its `id` text with the `id` attribute popped. -/
def disk_discovery_core (fr : Except PyErr Node) : Except PyErr SDict := do
  let doc ← fr
  let resp ← getResponse doc
  (resp.findAll "hdd").foldlM
    (fun acc hdd =>
      if truthy hdd then do
        let attrs := dictPop (childAttrs hdd) "id"
        let idt ← findTextE hdd "id"
        Except.ok (dictUpdate acc idt attrs)
      else Except.ok acc)
    []

/-- `disk_discovery`: local `DISKs`, assigned to `self._DISKs` only at
the end. -/
def disk_discovery (fr : Except PyErr Node) (st : Tables) :
    Except PyErr Unit × Tables :=
  match disk_discovery_core fr with
  | .ok d => (.ok (), { st with DISKs := d })
  | .error e => (.error e, st)

/-! ### `QSAN.cache_pool_discovery` -/

/-- `cache_pool_discovery` body: collect every truthy `ssdpoollist`
record keyed by its `ssd_name` text with spaces replaced by hyphens. -/
def cache_pool_discovery_core (fr : Except PyErr Node) : Except PyErr SDict := do
  let doc ← fr
  let resp ← getResponse doc
  (resp.findAll "ssdpoollist").foldlM
    (fun acc cp =>
      if truthy cp then do
        let attrs := childAttrs cp
        let nm ← findTextE cp "ssd_name"
        Except.ok (dictUpdate acc (pyReplaceChar nm ' ' "-") attrs)
      else Except.ok acc)
    []

/-- `cache_pool_discovery`: on SANOS3 it returns `{}` immediately
without fetching and without assigning `self._CPs`; otherwise a local
`CPs` is assigned at the end. -/
def cache_pool_discovery (ver : Nat) (fr : Except PyErr Node) (st : Tables) :
    Except PyErr Unit × Tables :=
  if ver = 3 then (.ok (), st)
  else
    match cache_pool_discovery_core fr with
    | .ok cps => (.ok (), { st with CPs := cps })
    | .error e => (.error e, st)

/-! ### `QSAN.fc_discovery` -/

/-- One controller iteration of `fc_discovery`: skip silently when the
document has no truthy `response` element; otherwise key every truthy
`fc_port_value` record by `controller:portIndex`, where the port index
is a one-character, version-dependent slice of the `name` attribute
(`[5:6]` on SANOS3, `[2:3]` otherwise) parsed as an int minus one.
`attrs.get('name')` being absent makes the slice a `None[...]`
TypeError. -/
def fc_ctrl_ports (ver : Nat) (controller : String) (fr : Except PyErr Node)
    (acc : SDict) : Except PyErr SDict := do
  let doc ← fr
  match doc.findTag "response" with
  | none => Except.ok acc
  | some resp =>
    if !truthy resp then Except.ok acc
    else
      (resp.findAll "fc_port_value").foldlM
        (fun a fcp =>
          if truthy fcp then do
            let attrs := childAttrs fcp
            let nmv ← match dictGet attrs "name" with
                      | some s => Except.ok s
                      | none => Except.error PyErr.typeError
            let idx := if ver = 3 then strSlice nmv 5 6 else strSlice nmv 2 3
            let n ← intE idx
            Except.ok (dictUpdate a (controller ++ ":" ++ toString (n - 1)) attrs)
          else Except.ok a)
        acc

/-- `fc_discovery` body: controllers `'0'` then `'1'`. -/
def fc_discovery_core (ver : Nat) (f0 f1 : Except PyErr Node) :
    Except PyErr SDict := do
  let a1 ← fc_ctrl_ports ver "0" f0 []
  fc_ctrl_ports ver "1" f1 a1

/-- `fc_discovery`: local `FCs`, assigned to `self._FCs` only at the
end. -/
def fc_discovery (ver : Nat) (f0 f1 : Except PyErr Node) (st : Tables) :
    Except PyErr Unit × Tables :=
  match fc_discovery_core ver f0 f1 with
  | .ok fcs => (.ok (), { st with FCs := fcs })
  | .error e => (.error e, st)

/-! ### Naming -/

/-- `_get_DISK_name_by_id`: joins `Slot`, slot, vendor, model (empty
when absent) and serial with underscores.  Note: unlike the VD and FC
name builders, no space stripping is performed, although the docstring
promises "No spaces allowed".  `self._DISKs.get(id)` being `None`
makes the `'model' in None` test a TypeError. -/
def get_DISK_name_by_id (tbl : SDict) (id : String) : Except PyErr String := do
  let attrs ← match dictGet tbl id with
              | some a => Except.ok a
              | none => Except.error PyErr.typeError
  let model := match dictGet attrs "model" with
               | some m => m
               | none => ""
  let slot ← dictGetE attrs "slot"
  let vendor ← dictGetE attrs "vendor"
  let serial ← dictGetE attrs "serial"
  Except.ok (String.intercalate "_" ["Slot", slot, vendor, model, serial])

/-- `_get_FC_port_name_by_id`: joins `ctr` and `name` with an
underscore and replaces every space by an underscore. -/
def get_FC_port_name_by_id (tbl : SDict) (port : String) : Except PyErr String := do
  let attrs ← match dictGet tbl port with
              | some a => Except.ok a
              | none => Except.error PyErr.typeError
  let ctr ← dictGetE attrs "ctr"
  let nm ← dictGetE attrs "name"
  Except.ok (pyReplaceChar (ctr ++ "_" ++ nm) ' ' "_")

/-! ### `QSAN.vd_stats` -/

/-- The record loop of `vd_stats`: a `volume_stats` record with a
truthy `vd_id` child contributes counters (`read`/`write` converted
KiB/s to B/s via `* 1024`) and its `vd_id` to
`volumes_monitoring_check`; other records are skipped. -/
def vd_collect (doc : Node) : Except PyErr (SDict × List String) := do
  let resp ← getResponse doc
  (resp.findAll "volume_stats").foldlM
    (fun (acc : SDict × List String) vs =>
      match vs.findTag "vd_id" with
      | some vidTag =>
        if truthy vidTag then do
          let vid := nodeText vidTag
          let iops ← findTextE vs "iops_rate"
          let tx ← findTextE vs "tx_rate"
          let rx ← findTextE vs "rx_rate"
          let checked := acc.2 ++ [vid]
          let rd ← intE tx
          let wr ← intE rx
          Except.ok
            (dictUpdate acc.1 vid
              [("iops", iops), ("read", toString (rd * 1024)),
               ("write", toString (wr * 1024))],
             checked)
        else Except.ok acc
      | none => Except.ok acc)
    ([], [])

/-- The enable-monitoring tail of `vd_stats`:
`if set(volumes_monitoring_check) != set(volumes_IDs):
self._vd_stats_enable_VDs(volumes_IDs)` — one batched POST naming
every known volume id. -/
def vd_reqs (ids checked : List String) : List Request :=
  if listSetEq checked ids then [] else [Request.batch ids]

/-- `vd_stats` over a known-volume table and a parsed stats response. -/
def vd_stats (tbl : SDict) (doc : Node) : Except PyErr (Run String) :=
  match vd_collect doc with
  | .error e => .error e
  | .ok (s, ch) => .ok ⟨s, ch, vd_reqs (tbl.map Prod.fst) ch⟩

/-! ### `QSAN.disk_stats` -/

/-- `_get_DISK_id_by_slot`: scans the disk table in order, returning
the first id whose `slot` attribute equals `slot`, and `None` when no
disk matches (the Python loop falls through without a `return`).
A table entry without a `slot` attribute is a KeyError. -/
def diskIdBySlot : SDict → String → Except PyErr (Option String)
  | [], _ => .ok none
  | (id, attrs) :: rest, slot => do
      let s ← dictGetE attrs "slot"
      if s = slot then .ok (some id) else diskIdBySlot rest slot

/-- The record loop of `disk_stats`: a `disk_monitor_stats` record with
a truthy `slot` child is keyed by `_get_DISK_id_by_slot(slot)` — an
`Option String`, `none` for an unknown slot — and contributes its
counters (`thruput` converted KiB/s to B/s); its key joins
`disks_monitoring_check` only when `is_enabled` reads `Yes`. -/
def disk_collect (tbl : SDict) (doc : Node) :
    Except PyErr (List (Option String × Attrs) × List (Option String)) := do
  let resp ← getResponse doc
  (resp.findAll "disk_monitor_stats").foldlM
    (fun (acc : List (Option String × Attrs) × List (Option String)) ds =>
      match ds.findTag "slot" with
      | some slotTag =>
        if truthy slotTag then do
          let slot := nodeText slotTag
          let id ← diskIdBySlot tbl slot
          let en ← findTextE ds "is_enabled"
          let checked := if en = "Yes" then acc.2 ++ [id] else acc.2
          let lat ← findTextE ds "latency"
          let thr ← findTextE ds "thruput"
          let ti ← intE thr
          Except.ok
            (dictUpdate acc.1 id
              [("latency", lat), ("thruput", toString (ti * 1024))],
             checked)
        else Except.ok acc
      | none => Except.ok acc)
    ([], [])

/-- `_get_DISK_slot_by_id`: `self._DISKs.get(id)['slot']` — TypeError
when the id is unknown (`None['slot']`), KeyError when the record has
no `slot` attribute. -/
def slotOf (tbl : SDict) (id : String) : Except PyErr String :=
  match dictGet tbl id with
  | none => .error .typeError
  | some a => dictGetE a "slot"

/-- The enable-monitoring tail of `disk_stats`: when the enabled-key
set differs from the known-id set, `_disk_stats_enable_DISKs` is called
with every known disk id, which it resolves to physical slots, sorts,
and submits as one batched POST. -/
def disk_reqs (tbl : SDict) (ids : List String) (checked : List (Option String)) :
    Except PyErr (List Request) :=
  if listSetEq checked (ids.map some) then .ok []
  else do
    let slots ← ids.mapM (slotOf tbl)
    .ok [Request.batch (sortStrings slots)]

/-- `disk_stats` over a known-disk table and a parsed stats response. -/
def disk_stats (tbl : SDict) (doc : Node) : Except PyErr (Run (Option String)) :=
  match disk_collect tbl doc with
  | .error e => .error e
  | .ok (s, ch) =>
    match disk_reqs tbl (tbl.map Prod.fst) ch with
    | .error e => .error e
    | .ok rq => .ok ⟨s, ch, rq⟩

/-! ### `QSAN.fc_stats` -/

/-- The nested record loops of `fc_stats`: for every truthy
`ctrl_fcport_info`, every truthy `fcport_stats` is keyed
`ctrl_idx:port_idx`; a port whose `is_enabled` reads `Yes` joins
`ports_monitoring_check` and reports real counters when `num_rates` is
positive (tx/rx converted KiB/s to B/s) and zeros otherwise; a
non-enabled port reports zeros without joining the check list. -/
def fc_collect (doc : Node) : Except PyErr (SDict × List String) := do
  let resp ← getResponse doc
  (resp.findAll "ctrl_fcport_info").foldlM
    (fun (acc : SDict × List String) cfi =>
      if truthy cfi then do
        let controller ← findTextE cfi "ctrl_idx"
        (cfi.findAll "fcport_stats").foldlM
          (fun (a : SDict × List String) fps =>
            if truthy fps then do
              let port ← findTextE fps "port_idx"
              let id := controller ++ ":" ++ port
              let en ← findTextE fps "is_enabled"
              if en = "Yes" then do
                let checked := a.2 ++ [id]
                let nr ← findTextE fps "num_rates"
                let ni ← intE nr
                if 0 < ni then do
                  let tx ← findTextE fps "tx"
                  let rx ← findTextE fps "rx"
                  let ti ← intE tx
                  let ri ← intE rx
                  Except.ok
                    (dictUpdate a.1 id
                      [("tx", toString (ti * 1024)), ("rx", toString (ri * 1024))],
                     checked)
                else
                  Except.ok (dictUpdate a.1 id [("tx", "0"), ("rx", "0")], checked)
              else
                Except.ok (dictUpdate a.1 id [("tx", "0"), ("rx", "0")], a.2)
            else Except.ok a)
          acc
      else Except.ok acc)
    ([], [])

/-- `_fc_stats_enable_FCs`: sorts the given port keys; on SANOS4 one
batched POST carrying the whole list, otherwise one POST per port
carrying `ctrl_idx = slotport[0:1]` and `port_idx = slotport[2:3]`. -/
def fc_enable (ver : Nat) (fcs : List String) : List Request :=
  let sorted := sortStrings fcs
  if ver = 4 then [Request.batch sorted]
  else sorted.map (fun sp => Request.single (strSlice sp 0 1) (strSlice sp 2 3))

/-- The enable-monitoring tail of `fc_stats`: when the sets differ,
SANOS4 passes every known port key, SANOS3 passes
`list(set(ports_IDs) - set(ports_monitoring_check))` (the missing
ports; known keys are distinct, and `fc_enable` sorts, so the filter
order is canonical). -/
def fc_reqs (ver : Nat) (ids checked : List String) : List Request :=
  if listSetEq checked ids then []
  else if ver = 4 then fc_enable ver ids
  else fc_enable ver (ids.filter (fun p => !checked.contains p))

/-- `fc_stats` over a known-port table and a parsed stats response. -/
def fc_stats (ver : Nat) (tbl : SDict) (doc : Node) : Except PyErr (Run String) :=
  match fc_collect doc with
  | .error e => .error e
  | .ok (s, ch) => .ok ⟨s, ch, fc_reqs ver (tbl.map Prod.fst) ch⟩

/-! ### `QSAN.cp_stats` and `QSAN.cp_stats_summarize` -/

/-- One cache pool as returned by `cp_stats`: the pool record's
attributes plus the joined `stats` dict of volume-group records. -/
structure PoolE where
  attrs : Attrs
  stats : SDict
  deriving Repr, DecidableEq

/-- `cp_stats`: returns `{}` on SANOS3 without fetching; otherwise
collects `pool_data` records keyed by `rg_id` text and `vol_data`
records keyed by `vd` text (the source's `if p.name:` / `if vg.name:`
guards test the tag's own name, which is always truthy), then attaches
to each pool the volume groups whose `rg` equals the pool's `rg_id`. -/
def cp_stats (ver : Nat) (doc : Node) : Except PyErr (List (String × PoolE)) :=
  if ver = 3 then .ok []
  else do
    let resp ← getResponse doc
    let pools ← (resp.findAll "pool_data").foldlM
      (fun (acc : SDict) p => do
        let pid ← findTextE p "rg_id"
        Except.ok (dictUpdate acc pid (childAttrs p)))
      []
    let vgs ← (resp.findAll "vol_data").foldlM
      (fun (acc : SDict) vg => do
        let vid ← findTextE vg "vd"
        Except.ok (dictUpdate acc vid (childAttrs vg)))
      []
    pools.mapM (fun pp => do
      let sts ← vgs.foldlM
        (fun (a : SDict) v => do
          let rg ← dictGetE v.2 "rg"
          let rgid ← dictGetE pp.2 "rg_id"
          Except.ok (if rg = rgid then dictUpdate a v.1 v.2 else a))
        []
      Except.ok (pp.1, PoolE.mk pp.2 sts))

/-- The five integer fields parsed from one volume-group record inside
the `cp_stats_summarize` accumulation loop. -/
structure CpRec where
  alloc : Int
  cached : Int
  dirty : Int
  hit : Int
  tot : Int
  deriving Repr, DecidableEq

/-- The accumulator of the `cp_stats_summarize` per-pool loop. -/
structure CpAcc where
  alloc : Int
  cached : Int
  dirty : Int
  hit : Int
  tot : Int
  deriving Repr, DecidableEq

/-- Parse the five summed/assigned fields of one volume-group record,
in source order (KeyError on a missing field, ValueError on a
non-integer). -/
def parseCpRec (vp : Attrs) : Except PyErr CpRec := do
  let a ← dictGetE vp "size_alloc"
  let ai ← intE a
  let c ← dictGetE vp "size_cached"
  let ci ← intE c
  let d ← dictGetE vp "size_dirty"
  let di ← intE d
  let h ← dictGetE vp "log_rd_hit"
  let hi ← intE h
  let t ← dictGetE vp "log_rd_tot"
  let ti ← intE t
  .ok ⟨ai, ci, di, hi, ti⟩

/-- One volume-group record folded into the accumulator.  The source
uses `size_alloc = int(...) * 1024 * 1024` — a plain assignment that
overwrites, where all other fields use `+=`. -/
def cpStep (f : CpAcc) (r : CpRec) : CpAcc :=
  ⟨r.alloc * 1024 * 1024,
   f.cached + r.cached * 1024 * 1024,
   f.dirty + r.dirty * 1024 * 1024,
   f.hit + r.hit,
   f.tot + r.tot⟩

/-- The per-pool accumulation loop of `cp_stats_summarize`, from an
arbitrary accumulator state. -/
def cpFoldFrom (acc : CpAcc) (vols : SDict) : Except PyErr CpAcc :=
  vols.foldlM
    (fun f vp => do
      let r ← parseCpRec vp.2
      Except.ok (cpStep f r))
    acc

/-- The per-pool accumulation loop of `cp_stats_summarize`, from the
all-zero accumulator (the source initialises all five counters to 0
before the loop). -/
def cpFold (vols : SDict) : Except PyErr CpAcc :=
  cpFoldFrom ⟨0, 0, 0, 0, 0⟩ vols

/-- The per-pool body of `cp_stats_summarize`: accumulate, compute
`ratio = round(log_rd_hit / (log_rd_tot / 100))` — a ZeroDivisionError
when the accumulated total is zero — and emit the six stringified
fields under the pool's `name` attribute. -/
def cpPoolEntry (pe : PoolE) : Except PyErr (String × Attrs) := do
  let f ← cpFold pe.stats
  if f.tot = 0 then .error .zeroDivision
  else do
    let ratio := pyRoundRatio f.hit f.tot
    let nm ← dictGetE pe.attrs "name"
    .ok (nm,
      [("size_alloc", toString f.alloc), ("size_cached", toString f.cached),
       ("size_dirty", toString f.dirty), ("log_rd_hit", toString f.hit),
       ("log_rd_tot", toString f.tot), ("ratio", toString ratio)])

/-- `cp_stats_summarize`: one flattened stat set per pool name. -/
def cp_stats_summarize (ver : Nat) (doc : Node) : Except PyErr SDict := do
  let cps ← cp_stats ver doc
  cps.foldlM
    (fun st pe => do
      let e ← cpPoolEntry pe.2
      Except.ok (dictUpdate st e.1 e.2))
    []

/-! ### Concrete inputs used by the theorems below -/

/-- A volume page reporting one volume and containing that volume. -/
def docOnePage : Node :=
  .tag "doc" [.tag "response"
    [.tag "vd_num" [.text "1"],
     .tag "udv" [.tag "id" [.text "a"], .tag "raid" [.text "x"]]]]

/-- A server that answers every page request with `docOnePage`. -/
def fetchOnePage : Nat → Nat → Except PyErr Node := fun _ _ => .ok docOnePage

/-- A volume page reporting two volumes but containing only one
well-formed volume record (no childless record, so the page counter
never advances). -/
def docTwoReported : Node :=
  .tag "doc" [.tag "response"
    [.tag "vd_num" [.text "2"],
     .tag "udv" [.tag "id" [.text "a"], .tag "raid" [.text "x"]]]]

/-- A server that answers every page request with `docTwoReported`. -/
def fetchStuck : Nat → Nat → Except PyErr Node := fun _ _ => .ok docTwoReported

/-- The volume table accumulated from `docTwoReported`'s single record. -/
def accStuck : SDict := [("a", [("raid", "x")])]

/-- A known-volume table with two volume ids. -/
def tblTwoVols : SDict := [("0", []), ("1", [])]

/-- A volume stats response with no `volume_stats` records at all:
no volume is observed as monitoring-enabled. -/
def docNoVolStats : Node := .tag "doc" [.tag "response" [.text "idle"]]

/-- A volume stats response in which only volume `0` reports stats
(so only `0` is observed as monitoring-enabled). -/
def docOneVolStats : Node :=
  .tag "doc" [.tag "response"
    [.tag "volume_stats"
      [.tag "vd_id" [.text "0"], .tag "iops_rate" [.text "5"],
       .tag "tx_rate" [.text "1"], .tag "rx_rate" [.text "2"]]]]

/-- A parsed document with no `response` root element (for example an
error page). -/
def docNoRoot : Node := .tag "doc" [.text "login required"]

/-- A parsed document whose `response` root lacks a `controller`
child: the SANOS3 shape of the dashboard reply. -/
def docRootNoCtrl : Node :=
  .tag "doc" [.tag "response" [.tag "status" [.text "ok"]]]

/-- A disk table whose single record carries a vendor string with an
embedded space. -/
def diskTblSpace : SDict :=
  [("1", [("slot", "7"), ("vendor", "SEA GATE"), ("model", "M"), ("serial", "S")])]

/-- A cache-pool stats response with one pool owning two volume-group
records whose `size_alloc` values differ (1 MiB and 2 MiB). -/
def docTwoVolGroups : Node :=
  .tag "doc" [.tag "response"
    [.tag "pool_data" [.tag "rg_id" [.text "0"], .tag "name" [.text "P"]],
     .tag "vol_data" [.tag "vd" [.text "v1"], .tag "rg" [.text "0"],
       .tag "size_alloc" [.text "1"], .tag "size_cached" [.text "1"],
       .tag "size_dirty" [.text "1"], .tag "log_rd_hit" [.text "1"],
       .tag "log_rd_tot" [.text "2"]],
     .tag "vol_data" [.tag "vd" [.text "v2"], .tag "rg" [.text "0"],
       .tag "size_alloc" [.text "2"], .tag "size_cached" [.text "2"],
       .tag "size_dirty" [.text "2"], .tag "log_rd_hit" [.text "1"],
       .tag "log_rd_tot" [.text "2"]]]]

/-- A cache-pool stats response with one pool and no volume-group
records, so the accumulated `log_rd_tot` stays zero. -/
def docPoolNoVols : Node :=
  .tag "doc" [.tag "response"
    [.tag "pool_data" [.tag "rg_id" [.text "0"], .tag "name" [.text "P"]]]]

/-- A server whose every fetch fails at the transport level. -/
def fetchFail : Nat → Nat → Except PyErr Node :=
  fun _ _ => .error (.transport "connection reset")

/-- A single failed fetch. -/
def frFail : Except PyErr Node := .error (.transport "connection reset")

/-- Previously populated discovery tables. -/
def tablesPrior : Tables :=
  ⟨[("v", [("name", "vol")])], [("d", [("slot", "1")])],
   [("c", [("rg_id", "0")])], [("f", [("name", "FC1")])]⟩

/-- A disk stats response containing one record whose `slot` text is
the given string, not monitoring-enabled, with latency 3 and thruput
7 KiB/s. -/
def docUnknownSlot (slot : String) : Node :=
  .tag "doc" [.tag "response"
    [.tag "disk_monitor_stats"
      [.tag "slot" [.text slot], .tag "is_enabled" [.text "No"],
       .tag "latency" [.text "3"], .tag "thruput" [.text "7"]]]]

/-- A disk table with one disk in slot 9. -/
def diskTblW : SDict := [("1", [("slot", "9")])]

/-- A known-FC-port table with two port keys. -/
def tblFcPorts : SDict := [("0:0", []), ("1:1", [])]

/-- An FC stats response with no port records: nothing is observed as
monitoring-enabled. -/
def docFcIdle : Node := .tag "doc" [.tag "response" [.text "idle"]]

/-- The two volume-group records of `docTwoVolGroups`'s pool, as the
`stats` dict that `cp_stats` attaches to it. -/
def cpVolsW : SDict :=
  [("v1", [("vd", "v1"), ("rg", "0"), ("size_alloc", "1"), ("size_cached", "1"),
           ("size_dirty", "1"), ("log_rd_hit", "1"), ("log_rd_tot", "2")]),
   ("v2", [("vd", "v2"), ("rg", "0"), ("size_alloc", "2"), ("size_cached", "2"),
           ("size_dirty", "2"), ("log_rd_hit", "1"), ("log_rd_tot", "2")])]

/-- The pool of `docTwoVolGroups` with its attached volume groups. -/
def cpPoolW : PoolE := ⟨[("rg_id", "0"), ("name", "P")], cpVolsW⟩

/-! ## Helper lemmas -/

theorem length_insertSorted (x : String) (l : List String) :
    (insertSorted x l).length = l.length + 1 := by
  induction l with
  | nil => rfl
  | cons y ys ih =>
    unfold insertSorted
    split
    · simp [ih]
    · simp

theorem length_sortStrings (l : List String) :
    (sortStrings l).length = l.length := by
  induction l with
  | nil => rfl
  | cons x xs ih => simp [sortStrings, length_insertSorted, ih]

theorem getLastD_map_mul (k : Int) (l : List Int) :
    ∀ d : Int, (l.map (fun x => x * k)).getLastD (d * k) = l.getLastD d * k := by
  induction l with
  | nil => intro d; rfl
  | cons x xs ih =>
    intro d
    rw [List.map_cons, List.getLastD_cons, List.getLastD_cons]
    exact ih x

theorem exceptBindOk {ε α β : Type} (a : α) (f : α → Except ε β) :
    (Except.ok a : Except ε α) >>= f = f a := rfl

theorem exceptBindErr {ε α β : Type} (e : ε) (f : α → Except ε β) :
    (Except.error e : Except ε α) >>= f = (Except.error e : Except ε β) := rfl

/-- The volume total returned by one `vdPage` step is the `vd_num`
reported by that page's document. -/
theorem vdPage_reported (doc : Node) (page : Nat) (acc : SDict)
    (p' : Nat) (a' : SDict) (cnt : Int)
    (h : vdPage doc page acc = .ok (p', a', cnt)) : vdNumOf doc = .ok cnt := by
  unfold vdPage at h
  unfold vdNumOf
  cases hr : getResponse doc with
  | error e => rw [hr, exceptBindErr] at h; cases h
  | ok resp =>
    rw [hr, exceptBindOk] at h
    rw [exceptBindOk]
    cases hn : vdNumIn resp with
    | error e => rw [hn, exceptBindErr] at h; cases h
    | ok n =>
      rw [hn, exceptBindOk] at h
      cases hf : (resp.findAll "udv").foldlM vdRecord (page, acc) with
      | error e => rw [hf, exceptBindErr] at h; cases h
      | ok pa =>
        rw [hf, exceptBindOk] at h
        cases h
        rfl

/-- A successful `vd_stats` poll issues exactly the requests computed
by `vd_reqs` from the known ids and the observed enabled list. -/
theorem vd_stats_run (tbl : SDict) (doc : Node) (r : Run String)
    (h : vd_stats tbl doc = .ok r) :
    r.reqs = vd_reqs (tbl.map Prod.fst) r.checked := by
  unfold vd_stats at h
  cases hc : vd_collect doc with
  | error e => rw [hc] at h; cases h
  | ok p =>
    obtain ⟨s, ch⟩ := p
    rw [hc] at h
    cases h
    rfl

/-- A successful `fc_stats` poll issues exactly the requests computed
by `fc_reqs`. -/
theorem fc_stats_run (ver : Nat) (tbl : SDict) (doc : Node) (r : Run String)
    (h : fc_stats ver tbl doc = .ok r) :
    r.reqs = fc_reqs ver (tbl.map Prod.fst) r.checked := by
  unfold fc_stats at h
  cases hc : fc_collect doc with
  | error e => rw [hc] at h; cases h
  | ok p =>
    obtain ⟨s, ch⟩ := p
    rw [hc] at h
    cases h
    rfl

/-- A successful `disk_stats` poll issues exactly the requests computed
by `disk_reqs`. -/
theorem disk_stats_run (tbl : SDict) (doc : Node) (r : Run (Option String))
    (h : disk_stats tbl doc = .ok r) :
    disk_reqs tbl (tbl.map Prod.fst) r.checked = .ok r.reqs := by
  unfold disk_stats at h
  cases hc : disk_collect tbl doc with
  | error e => rw [hc] at h; cases h
  | ok p =>
    obtain ⟨s, ch⟩ := p
    rw [hc] at h
    have h2 : (match disk_reqs tbl (tbl.map Prod.fst) ch with
      | Except.error e => (Except.error e : Except PyErr (Run (Option String)))
      | Except.ok rq => Except.ok ⟨s, ch, rq⟩) = Except.ok r := h
    cases hq : disk_reqs tbl (tbl.map Prod.fst) ch with
    | error e => rw [hq] at h2; cases h2
    | ok rq =>
      rw [hq] at h2
      cases h2
      exact hq

/-! ## Claim theorems -/

/-- C4 (counterexample): the claim says `storage_stats` returns an
empty mapping and raises no error for every response the array may
send on the older generation; but on a parsed document with no
`response` root element (for example an error page),
`self._soup.response.controller` is an attribute access on `None` and
raises AttributeError. -/
theorem storage_stats_errors_without_response_root :
    storage_stats docNoRoot = .error .attrError := by decide

/-- C5: the source's docstring for `_get_DISK_name_by_id` promises
"No spaces allowed" (and the spec repeats it), but the function joins
slot, vendor, model and serial without stripping spaces: a disk whose
vendor string contains a space yields a display name containing a
space. -/
theorem disk_name_contains_space_at_failing_input :
    get_DISK_name_by_id diskTblSpace "1" = .ok "Slot_7_SEA GATE_M_S" ∧
    ' ' ∈ "Slot_7_SEA GATE_M_S".toList := by decide

/-- C8: a cache pool with no grouped volume-group records leaves the
accumulated `log_rd_tot` at zero, and
`round(log_rd_hit / (log_rd_tot / 100))` raises ZeroDivisionError, so
`cp_stats_summarize` fails instead of returning a result. -/
theorem cp_summarize_zero_division_on_empty_pool :
    cp_stats_summarize 4 docPoolNoVols = .error .zeroDivision := by decide

/-- C6 (counterexample): for a pool owning two volume-group records
with `size_alloc` 1 MiB and 2 MiB, the reported `size_alloc` is
`2097152` — the LAST record's value times 1024·1024, because the
source uses `=` instead of `+=` on that line — and not the claimed
sum `(1+2)·1024·1024 = 3145728` (while `size_cached`, `size_dirty`
and the hit counters are indeed summed). -/
theorem cp_summarize_alloc_not_summed :
    cp_stats_summarize 4 docTwoVolGroups =
      .ok [("P", [("size_alloc", "2097152"), ("size_cached", "3145728"),
                  ("size_dirty", "3145728"), ("log_rd_hit", "2"),
                  ("log_rd_tot", "4"), ("ratio", "50")])] ∧
    (2097152 : Int) ≠ (1 + 2) * 1024 * 1024 := by decide

/-- C2 (counterexample): a volume-stats poll (whose behaviour does not
depend on the detected generation, so in particular a SANOS3 poll)
with two known volumes and none observed enabled issues exactly ONE
batched enable request, not one request per missing entity as the
claim states for the older generation. -/
theorem vd_stats_one_batched_request_despite_two_missing :
    vd_stats tblTwoVols docNoVolStats =
      .ok ⟨[], [], [Request.batch ["0", "1"]]⟩ ∧
    [Request.batch ["0", "1"]].length = 1 ∧
    ((tblTwoVols.map Prod.fst).filter
      (fun p => !([] : List String).contains p)).length = 2 := by decide

/-- C3 (counterexample): with known volumes `{0, 1}` and volume `0`
observed enabled, the follow-up enable request carries the full list
`["0", "1"]` — naming `0`, which is already enabled — rather than
exactly the missing set `["1"]`. -/
theorem vd_stats_enable_request_names_enabled_entity :
    vd_stats tblTwoVols docOneVolStats =
      .ok ⟨[("0", [("iops", "5"), ("read", "1024"), ("write", "2048")])], ["0"],
           [Request.batch ["0", "1"]]⟩ ∧
    "0" ∈ ["0", "1"] ∧ "0" ∈ (["0"] : List String) ∧
    ([Request.batch ["0", "1"]] ≠ [Request.batch ["1"]]) := by decide

/-- C1: whenever the `vd_discovery` pagination loop returns normally —
for any fuel, any starting point and any sequence of page responses —
the accumulated volume table has exactly as many entries as the
`vd_num` total reported by the page on which the loop stopped (the
break condition is `len(VDs) == VD_count`), so discovery never
finishes with a count different from the reported total. -/
theorem vd_discovery_terminates_with_reported_count
    (fetch : Nat → Nat → Except PyErr Node) (fuel iter page : Nat)
    (acc vds : SDict)
    (h : vdLoop fetch fuel iter page acc = .ok vds) :
    ∃ i p doc, fetch i p = .ok doc ∧ vdNumOf doc = .ok (vds.length : Int) := by
  induction fuel generalizing iter page acc with
  | zero => cases h
  | succ n ih =>
    unfold vdLoop at h
    cases hf : fetch iter page with
    | error e => rw [hf] at h; cases h
    | ok doc =>
      rw [hf] at h
      have h2 : (match vdPage doc page acc with
        | Except.error e => DResult.err e
        | Except.ok (page', acc', cnt) =>
            if ((acc'.length : Int) = cnt) then DResult.ok acc'
            else vdLoop fetch n (iter + 1) page' acc') = DResult.ok vds := h
      cases hp : vdPage doc page acc with
      | error e => rw [hp] at h2; cases h2
      | ok t =>
        obtain ⟨page', acc', cnt⟩ := t
        rw [hp] at h2
        have h3 : (if ((acc'.length : Int) = cnt) then DResult.ok acc'
            else vdLoop fetch n (iter + 1) page' acc') = DResult.ok vds := h2
        by_cases hlen : (acc'.length : Int) = cnt
        · rw [if_pos hlen] at h3
          have hv2 : acc' = vds := DResult.ok.inj h3
          subst hv2
          refine ⟨iter, page, doc, hf, ?_⟩
          rw [vdPage_reported doc page acc page' acc' cnt hp, ← hlen]
        · rw [if_neg hlen] at h3
          exact ih (iter + 1) page' acc' h3

/-- C1 witness: a server reporting one volume and returning it on the
first page makes the loop stop with a one-entry table. -/
theorem vd_discovery_terminates_with_reported_count_w :
    ∃ i p doc, fetchOnePage i p = .ok doc ∧
      vdNumOf doc = .ok (([("a", [("raid", "x")])] : SDict).length : Int) :=
  vd_discovery_terminates_with_reported_count fetchOnePage 2 0 1 []
    [("a", [("raid", "x")])] (by decide)

/-- The `vd_discovery` loop re-requests the same page forever once the
accumulated table stalls below the reported total. -/
theorem vdLoop_stuck (fuel : Nat) :
    ∀ iter, vdLoop fetchStuck fuel iter 1 accStuck = .fuelOut := by
  induction fuel with
  | zero => intro iter; rfl
  | succ n ih =>
    intro iter
    have hp : vdPage docTwoReported 1 accStuck = .ok (1, accStuck, 2) := by decide
    unfold vdLoop
    simp only [fetchStuck, hp]
    rw [if_neg (by decide)]
    exact ih (iter + 1)

/-- C9: `vd_discovery` is not total.  Against a server whose every
page response reports a total (2) larger than the number of distinct
records it carries (1) and contains only well-formed records (so the
page counter never advances), the loop runs out of any amount of fuel
without returning and without raising: the source loop never
terminates. -/
theorem vd_discovery_nonterminating_on_wellformed_pages :
    ∀ (fuel : Nat) (st : Tables),
      vd_discovery fetchStuck fuel st = (DResult.fuelOut, st) := by
  have hstart : ∀ fuel iter, vdLoop fetchStuck fuel iter 1 [] = .fuelOut := by
    intro fuel
    cases fuel with
    | zero => intro iter; rfl
    | succ n =>
      intro iter
      have hp : vdPage docTwoReported 1 [] = .ok (1, accStuck, 2) := by decide
      unfold vdLoop
      simp only [fetchStuck, hp]
      rw [if_neg (by decide)]
      exact vdLoop_stuck n (iter + 1)
  intro fuel st
  unfold vd_discovery
  rw [hstart fuel 0]

/-- C7: every discovery routine accumulates into a local table and
assigns the instance field only after its last fetch succeeded, so a
transport error (or any other raised fault) during any fetch
propagates to the caller with all four previously populated discovery
tables exactly as they were.  (The stats routines never write any
discovery table: in this embedding they only read `Tables`.) -/
theorem discovery_error_preserves_tables :
    (∀ (fetch : Nat → Nat → Except PyErr Node) (fuel : Nat) (st : Tables) (e : PyErr),
      (vd_discovery fetch fuel st).1 = .err e → (vd_discovery fetch fuel st).2 = st) ∧
    (∀ (fr : Except PyErr Node) (st : Tables) (e : PyErr),
      (disk_discovery fr st).1 = .error e → (disk_discovery fr st).2 = st) ∧
    (∀ (ver : Nat) (fr : Except PyErr Node) (st : Tables) (e : PyErr),
      (cache_pool_discovery ver fr st).1 = .error e →
        (cache_pool_discovery ver fr st).2 = st) ∧
    (∀ (ver : Nat) (f0 f1 : Except PyErr Node) (st : Tables) (e : PyErr),
      (fc_discovery ver f0 f1 st).1 = .error e → (fc_discovery ver f0 f1 st).2 = st) := by
  refine ⟨?_, ?_, ?_, ?_⟩
  · intro fetch fuel st e h
    unfold vd_discovery at h ⊢
    cases hv : vdLoop fetch fuel 0 1 [] with
    | ok vds => rw [hv] at h; cases h
    | err e2 => rfl
    | fuelOut => rw [hv] at h
  · intro fr st e h
    unfold disk_discovery at h ⊢
    cases hc : disk_discovery_core fr with
    | ok d => rw [hc] at h; cases h
    | error e2 => rfl
  · intro ver fr st e h
    unfold cache_pool_discovery at h ⊢
    by_cases h3 : ver = 3
    · rw [if_pos h3] at h; cases h
    · rw [if_neg h3] at h ⊢
      cases hc : cache_pool_discovery_core fr with
      | ok cps => rw [hc] at h; cases h
      | error e2 => rfl
  · intro ver f0 f1 st e h
    unfold fc_discovery at h ⊢
    cases hc : fc_discovery_core ver f0 f1 with
    | ok fcs => rw [hc] at h; cases h
    | error e2 => rfl

/-- C7 witness: a connection reset during the first fetch of each
discovery routine leaves the previously populated tables unchanged. -/
theorem discovery_error_preserves_tables_w :
    (vd_discovery fetchFail 5 tablesPrior).2 = tablesPrior ∧
    (disk_discovery frFail tablesPrior).2 = tablesPrior ∧
    (cache_pool_discovery 4 frFail tablesPrior).2 = tablesPrior ∧
    (fc_discovery 4 frFail frFail tablesPrior).2 = tablesPrior :=
  ⟨discovery_error_preserves_tables.1 fetchFail 5 tablesPrior
      (.transport "connection reset") (by decide),
   discovery_error_preserves_tables.2.1 frFail tablesPrior
      (.transport "connection reset") (by decide),
   discovery_error_preserves_tables.2.2.1 4 frFail tablesPrior
      (.transport "connection reset") (by decide),
   discovery_error_preserves_tables.2.2.2 4 frFail frFail tablesPrior
      (.transport "connection reset") (by decide)⟩

/-- `_get_DISK_id_by_slot` falls through to `None` when every disk's
`slot` attribute differs from the requested slot. -/
theorem diskIdBySlot_none (tbl : SDict) (slot : String) :
    (∀ p ∈ tbl, ∃ v, dictGet p.2 "slot" = some v ∧ v ≠ slot) →
    diskIdBySlot tbl slot = .ok none := by
  induction tbl with
  | nil => intro _; rfl
  | cons p rest ih =>
    intro h
    obtain ⟨id, attrs⟩ := p
    obtain ⟨v, hv, hne⟩ := h (id, attrs) (List.mem_cons_self _ _)
    have hv2 : dictGet attrs "slot" = some v := hv
    have hg : dictGetE attrs "slot" = Except.ok v := by
      unfold dictGetE
      rw [hv2]
    unfold diskIdBySlot
    rw [hg, exceptBindOk, if_neg hne]
    exact ih (fun q hq => h q (List.mem_cons_of_mem _ hq))

/-- When every table entry has a `slot` attribute,
`_get_DISK_slot_by_id` succeeds on every known disk id, so the batched
slot resolution in `_disk_stats_enable_DISKs` succeeds. -/
theorem slots_mapM_ok (tbl : SDict)
    (h : ∀ p ∈ tbl, ∃ v, dictGet p.2 "slot" = some v) :
    ∀ ids : List String, (∀ id ∈ ids, id ∈ tbl.map Prod.fst) →
      ∃ sl, ids.mapM (slotOf tbl) = .ok sl := by
  intro ids
  induction ids with
  | nil => intro _; exact ⟨[], rfl⟩
  | cons id rest ih =>
    intro hin
    have hid : id ∈ tbl.map Prod.fst := hin id (List.mem_cons_self _ _)
    obtain ⟨p, hp, he⟩ := List.mem_map.mp hid
    have hsome : (tbl.find? (fun q => q.1 = id)).isSome :=
      List.find?_isSome.mpr ⟨p, hp, by simp [he]⟩
    obtain ⟨q, hq⟩ := Option.isSome_iff_exists.mp hsome
    obtain ⟨v, hv⟩ := h q (List.mem_of_find?_eq_some hq)
    have hget : dictGet tbl id = some q.2 := by
      unfold dictGet
      rw [hq]
      rfl
    have hslot : slotOf tbl id = .ok v := by
      simp [slotOf, hget, dictGetE, hv]
    obtain ⟨sl, hsl⟩ := ih (fun i hi => hin i (List.mem_cons_of_mem _ hi))
    refine ⟨v :: sl, ?_⟩
    rw [List.mapM_cons, hslot, exceptBindOk, hsl, exceptBindOk]
    rfl

/-- C10: when a disk-stats record carries a slot that matches no disk
in the discovery table (every table entry's `slot` attribute differs
from it), `_get_DISK_id_by_slot` returns `None`, and `disk_stats`
neither skips the record nor raises: it returns a mapping whose key is
the absent value `None`, carrying that record's counters. -/
theorem disk_stats_unknown_slot_under_none_key (tbl : SDict) (slot : String)
    (h : ∀ p ∈ tbl, ∃ v, dictGet p.2 "slot" = some v ∧ v ≠ slot) :
    diskIdBySlot tbl slot = .ok none ∧
    ∃ r, disk_stats tbl (docUnknownSlot slot) = .ok r ∧
      r.stats = [(none, [("latency", "3"), ("thruput", "7168")])] ∧
      r.checked = [] := by
  have hnone := diskIdBySlot_none tbl slot h
  refine ⟨hnone, ?_⟩
  have hnone2 : diskIdBySlot tbl (slot ++ "") = .ok none := by
    rw [String.append_empty]
    exact hnone
  have hcoll : disk_collect tbl (docUnknownSlot slot) =
      .ok ([(none, [("latency", "3"), ("thruput", "7168")])], []) := by
    have step1 : disk_collect tbl (docUnknownSlot slot) =
        ((diskIdBySlot tbl (slot ++ "")) >>=
          (fun id => Except.ok
            ([(id, [("latency", "3"), ("thruput", "7168")])],
             ([] : List (Option String))))) >>= (fun a => pure a) := rfl
    rw [step1, hnone2, exceptBindOk, exceptBindOk]
    rfl
  have hstep : disk_stats tbl (docUnknownSlot slot) =
      (match disk_reqs tbl (tbl.map Prod.fst) ([] : List (Option String)) with
        | Except.error e => Except.error e
        | Except.ok rq =>
            Except.ok ⟨[(none, [("latency", "3"), ("thruput", "7168")])], [], rq⟩) := by
    unfold disk_stats
    rw [hcoll]
  cases hrq : disk_reqs tbl (tbl.map Prod.fst) ([] : List (Option String)) with
  | error e =>
    exfalso
    unfold disk_reqs at hrq
    by_cases hset : listSetEq ([] : List (Option String)) ((tbl.map Prod.fst).map some) = true
    · rw [if_pos hset] at hrq; cases hrq
    · rw [if_neg hset] at hrq
      obtain ⟨sl, hsl⟩ := slots_mapM_ok tbl
        (fun p hp => (h p hp).elim (fun v hv => ⟨v, hv.1⟩))
        (tbl.map Prod.fst) (fun i hi => hi)
      rw [hsl, exceptBindOk] at hrq
      cases hrq
  | ok rq =>
    refine ⟨⟨[(none, [("latency", "3"), ("thruput", "7168")])], [], rq⟩, ?_, rfl, rfl⟩
    rw [hstep, hrq]

/-- C10 witness: a table with one disk in slot 9 and a stats record
for slot 5. -/
theorem disk_stats_unknown_slot_under_none_key_w :
    diskIdBySlot diskTblW "5" = .ok none ∧
    ∃ r, disk_stats diskTblW (docUnknownSlot "5") = .ok r ∧
      r.stats = [(none, [("latency", "3"), ("thruput", "7168")])] ∧
      r.checked = [] :=
  disk_stats_unknown_slot_under_none_key diskTblW "5"
    (by
      intro p hp
      simp only [diskTblW, List.mem_singleton] at hp
      subst hp
      exact ⟨"9", by decide, by decide⟩)

/-- Characterisation of the `cp_stats_summarize` accumulation loop
from an arbitrary accumulator: `size_cached`, `size_dirty` and the hit
counters accumulate sums, while `size_alloc` keeps only the last
record's value (the `=` assignment). -/
theorem cpFoldFrom_char (vols : SDict) :
    ∀ (acc f : CpAcc), cpFoldFrom acc vols = .ok f →
      ∃ rs : List CpRec, vols.mapM (fun vp => parseCpRec vp.2) = .ok rs ∧
        f.cached = acc.cached + (rs.map CpRec.cached).sum * 1024 * 1024 ∧
        f.dirty = acc.dirty + (rs.map CpRec.dirty).sum * 1024 * 1024 ∧
        f.hit = acc.hit + (rs.map CpRec.hit).sum ∧
        f.tot = acc.tot + (rs.map CpRec.tot).sum ∧
        f.alloc = (rs.map (fun r => r.alloc * 1024 * 1024)).getLastD acc.alloc := by
  induction vols with
  | nil =>
    intro acc f h
    cases h
    exact ⟨[], rfl, by simp, by simp, by simp, by simp, rfl⟩
  | cons vp rest ih =>
    intro acc f h
    have h2 : ((parseCpRec vp.2 >>= fun r => Except.ok (cpStep acc r)) >>=
        fun a => cpFoldFrom a rest) = Except.ok f := h
    cases hp : parseCpRec vp.2 with
    | error e => rw [hp, exceptBindErr, exceptBindErr] at h2; cases h2
    | ok r =>
      rw [hp, exceptBindOk, exceptBindOk] at h2
      obtain ⟨rs, hrs, hc, hd, hh, ht, ha⟩ := ih (cpStep acc r) f h2
      refine ⟨r :: rs, ?_, ?_, ?_, ?_, ?_, ?_⟩
      · rw [List.mapM_cons, hp, exceptBindOk, hrs, exceptBindOk]
        rfl
      · simp only [cpStep] at hc
        rw [List.map_cons, List.sum_cons]
        omega
      · simp only [cpStep] at hd
        rw [List.map_cons, List.sum_cons]
        omega
      · simp only [cpStep] at hh
        rw [List.map_cons, List.sum_cons]
        omega
      · simp only [cpStep] at ht
        rw [List.map_cons, List.sum_cons]
        omega
      · simp only [cpStep] at ha
        rw [List.map_cons, List.getLastD_cons]
        exact ha

/-- C6 (amended): in `cp_stats_summarize`, for every pool whose
accumulation succeeds, the reported `size_cached` and `size_dirty`
equal the sum over the pool's volume-group records converted MiB to
bytes (×1024×1024), and `log_rd_hit` / `log_rd_tot` equal the plain
sums — but `size_alloc` equals the LAST record's value ×1024×1024 (0
for no records), not the sum: the source assigns instead of
accumulating.  The second part ties the accumulator to the stringified
fields the pool entry reports. -/
theorem cp_summarize_field_sums :
    (∀ (vols : SDict) (f : CpAcc), cpFold vols = .ok f →
      ∃ rs : List CpRec, vols.mapM (fun vp => parseCpRec vp.2) = .ok rs ∧
        f.cached = (rs.map CpRec.cached).sum * 1024 * 1024 ∧
        f.dirty = (rs.map CpRec.dirty).sum * 1024 * 1024 ∧
        f.hit = (rs.map CpRec.hit).sum ∧
        f.tot = (rs.map CpRec.tot).sum ∧
        f.alloc = (rs.map CpRec.alloc).getLastD 0 * 1024 * 1024) ∧
    (∀ (pe : PoolE) (nm : String) (fields : Attrs),
      cpPoolEntry pe = .ok (nm, fields) →
      ∃ f : CpAcc, cpFold pe.stats = .ok f ∧
        fields = [("size_alloc", toString f.alloc),
                  ("size_cached", toString f.cached),
                  ("size_dirty", toString f.dirty),
                  ("log_rd_hit", toString f.hit),
                  ("log_rd_tot", toString f.tot),
                  ("ratio", toString (pyRoundRatio f.hit f.tot))]) := by
  constructor
  · intro vols f h
    obtain ⟨rs, hrs, hc, hd, hh, ht, ha⟩ := cpFoldFrom_char vols ⟨0, 0, 0, 0, 0⟩ f h
    refine ⟨rs, hrs, by simpa using hc, by simpa using hd,
      by simpa using hh, by simpa using ht, ?_⟩
    have hmap : rs.map (fun r => r.alloc * 1024 * 1024) =
        (rs.map CpRec.alloc).map (fun x => x * 1048576) := by
      rw [List.map_map]
      exact List.map_congr_left
        (fun a _ => by show a.alloc * 1024 * 1024 = a.alloc * 1048576; omega)
    rw [ha, hmap]
    have h0 : (⟨0, 0, 0, 0, 0⟩ : CpAcc).alloc = (0 : Int) * 1048576 := by norm_num
    rw [h0, getLastD_map_mul]
    omega
  · intro pe nm fields h
    unfold cpPoolEntry at h
    cases hf : cpFold pe.stats with
    | error e => rw [hf, exceptBindErr] at h; cases h
    | ok f =>
      rw [hf, exceptBindOk] at h
      by_cases htot : f.tot = 0
      · rw [if_pos htot] at h; cases h
      · rw [if_neg htot] at h
        cases hn : dictGetE pe.attrs "name" with
        | error e => rw [hn, exceptBindErr] at h; cases h
        | ok s =>
          rw [hn, exceptBindOk] at h
          cases h
          exact ⟨f, rfl, rfl⟩

/-- C6 witness: the two-record pool of `docTwoVolGroups`, whose
accumulator ends at cached/dirty sums 3 MiB but alloc only 2 MiB. -/
theorem cp_summarize_field_sums_w :
    (∃ rs : List CpRec, cpVolsW.mapM (fun vp => parseCpRec vp.2) = .ok rs ∧
      (⟨2097152, 3145728, 3145728, 2, 4⟩ : CpAcc).cached =
        (rs.map CpRec.cached).sum * 1024 * 1024 ∧
      (⟨2097152, 3145728, 3145728, 2, 4⟩ : CpAcc).dirty =
        (rs.map CpRec.dirty).sum * 1024 * 1024 ∧
      (⟨2097152, 3145728, 3145728, 2, 4⟩ : CpAcc).hit = (rs.map CpRec.hit).sum ∧
      (⟨2097152, 3145728, 3145728, 2, 4⟩ : CpAcc).tot = (rs.map CpRec.tot).sum ∧
      (⟨2097152, 3145728, 3145728, 2, 4⟩ : CpAcc).alloc =
        (rs.map CpRec.alloc).getLastD 0 * 1024 * 1024) ∧
    (∃ f : CpAcc, cpFold cpPoolW.stats = .ok f ∧
      [("size_alloc", "2097152"), ("size_cached", "3145728"),
       ("size_dirty", "3145728"), ("log_rd_hit", "2"),
       ("log_rd_tot", "4"), ("ratio", "50")] =
        [("size_alloc", toString f.alloc),
         ("size_cached", toString f.cached),
         ("size_dirty", toString f.dirty),
         ("log_rd_hit", toString f.hit),
         ("log_rd_tot", toString f.tot),
         ("ratio", toString (pyRoundRatio f.hit f.tot))]) :=
  ⟨cp_summarize_field_sums.1 cpVolsW ⟨2097152, 3145728, 3145728, 2, 4⟩ (by decide),
   cp_summarize_field_sums.2 cpPoolW "P"
     [("size_alloc", "2097152"), ("size_cached", "3145728"),
      ("size_dirty", "3145728"), ("log_rd_hit", "2"),
      ("log_rd_tot", "4"), ("ratio", "50")] (by decide)⟩

/-- C4 (amended): on SANOS3, `cp_stats_summarize` returns an empty
mapping without raising for every response whatsoever (it never even
fetches).  `storage_stats` returns an empty mapping without raising
for every response whose parse has a `response` root with no truthy
`controller` child; when the `response` root itself is absent it
raises AttributeError instead (see the counterexample). -/
theorem sanos3_cp_and_storage_stats_empty :
    (∀ doc : Node, cp_stats_summarize 3 doc = .ok []) ∧
    (∀ doc resp : Node, doc.findTag "response" = some resp →
      (∀ c, resp.findTag "controller" = some c → truthy c = false) →
      storage_stats doc = .ok []) := by
  constructor
  · intro doc
    rfl
  · intro doc resp hresp hctrl
    have h2 : storage_stats doc = storage_stats_body resp := by
      unfold storage_stats
      rw [hresp]
    rw [h2]
    unfold storage_stats_body
    cases hc : resp.findTag "controller" with
    | none => rfl
    | some c =>
      have ht := hctrl c hc
      simp [ht]

/-- C4 witness: a SANOS3-shaped dashboard response (a `response` root
with no `controller` child) yields empty results from both calls. -/
theorem sanos3_cp_and_storage_stats_empty_w :
    cp_stats_summarize 3 docRootNoCtrl = .ok [] ∧
    storage_stats docRootNoCtrl = .ok [] :=
  ⟨sanos3_cp_and_storage_stats_empty.1 docRootNoCtrl,
   sanos3_cp_and_storage_stats_empty.2 docRootNoCtrl
     (Node.tag "response" [Node.tag "status" [Node.text "ok"]]) rfl
     (fun c hc => by
       rw [show (Node.tag "response" [Node.tag "status" [Node.text "ok"]]).findTag
             "controller" = none from rfl] at hc
       cases hc)⟩

/-- C2 (amended): when the observed enabled set differs from the known
set, volume and disk stats retrieval issue exactly ONE batched
enable-monitoring request regardless of the detected generation (they
never branch on it); only FC stats retrieval branches: exactly one
batched request on SANOS4 and exactly one single-port request per
missing port on SANOS3. -/
theorem enable_request_counts :
    (∀ (tbl : SDict) (doc : Node) (r : Run String), vd_stats tbl doc = .ok r →
      listSetEq r.checked (tbl.map Prod.fst) = false → r.reqs.length = 1) ∧
    (∀ (tbl : SDict) (doc : Node) (r : Run (Option String)),
      disk_stats tbl doc = .ok r →
      listSetEq r.checked ((tbl.map Prod.fst).map some) = false →
      r.reqs.length = 1) ∧
    (∀ (tbl : SDict) (doc : Node) (r : Run String), fc_stats 4 tbl doc = .ok r →
      listSetEq r.checked (tbl.map Prod.fst) = false → r.reqs.length = 1) ∧
    (∀ (tbl : SDict) (doc : Node) (r : Run String), fc_stats 3 tbl doc = .ok r →
      listSetEq r.checked (tbl.map Prod.fst) = false →
      r.reqs.length =
        ((tbl.map Prod.fst).filter (fun p => !r.checked.contains p)).length) := by
  refine ⟨?_, ?_, ?_, ?_⟩
  · intro tbl doc r h hne
    rw [vd_stats_run tbl doc r h]
    unfold vd_reqs
    rw [if_neg (by rw [hne]; simp)]
    rfl
  · intro tbl doc r h hne
    have hq := disk_stats_run tbl doc r h
    unfold disk_reqs at hq
    rw [if_neg (by rw [hne]; simp)] at hq
    cases hm : (tbl.map Prod.fst).mapM (slotOf tbl) with
    | error e => rw [hm, exceptBindErr] at hq; cases hq
    | ok sl =>
      rw [hm, exceptBindOk] at hq
      rw [← Except.ok.inj hq]
      rfl
  · intro tbl doc r h hne
    rw [fc_stats_run 4 tbl doc r h]
    unfold fc_reqs fc_enable
    rw [if_neg (by rw [hne]; simp)]
    simp
  · intro tbl doc r h hne
    rw [fc_stats_run 3 tbl doc r h]
    unfold fc_reqs fc_enable
    rw [if_neg (by rw [hne]; simp)]
    simp [length_sortStrings]

/-- C2 (amended) witness: concrete polls with nothing enabled — two
known volumes give one batched request; one known disk gives one
batched request; two known FC ports give one batched request on
SANOS4 and two single-port requests (one per missing port) on
SANOS3. -/
theorem enable_request_counts_w :
    (⟨[], [], [Request.batch ["0", "1"]]⟩ : Run String).reqs.length = 1 ∧
    (⟨[(none, [("latency", "3"), ("thruput", "7168")])], [],
      [Request.batch ["9"]]⟩ : Run (Option String)).reqs.length = 1 ∧
    (⟨[], [], [Request.batch ["0:0", "1:1"]]⟩ : Run String).reqs.length = 1 ∧
    (⟨[], [], [Request.single "0" "0", Request.single "1" "1"]⟩ :
        Run String).reqs.length =
      ((tblFcPorts.map Prod.fst).filter
        (fun p => !(([] : List String).contains p))).length :=
  ⟨enable_request_counts.1 tblTwoVols docNoVolStats
      ⟨[], [], [Request.batch ["0", "1"]]⟩ (by decide) (by decide),
   enable_request_counts.2.1 diskTblW (docUnknownSlot "5")
      ⟨[(none, [("latency", "3"), ("thruput", "7168")])], [],
       [Request.batch ["9"]]⟩ (by decide) (by decide),
   enable_request_counts.2.2.1 tblFcPorts docFcIdle
      ⟨[], [], [Request.batch ["0:0", "1:1"]]⟩ (by decide) (by decide),
   enable_request_counts.2.2.2 tblFcPorts docFcIdle
      ⟨[], [], [Request.single "0" "0", Request.single "1" "1"]⟩
      (by decide) (by decide)⟩

/-- C3 (amended): when the observed enabled set differs from the known
set, the follow-up enable request names the FULL known-entity set — a
superset of the missing set that can include already-enabled entities
— for volume stats (the raw id list), disk stats (all known ids
resolved to slots and sorted) and FC stats on SANOS4 (sorted ids).
Only FC stats on SANOS3 names exactly the missing ports, one request
each. -/
theorem enable_requests_name_known_set :
    (∀ (tbl : SDict) (doc : Node) (r : Run String), vd_stats tbl doc = .ok r →
      listSetEq r.checked (tbl.map Prod.fst) = false →
      r.reqs = [Request.batch (tbl.map Prod.fst)]) ∧
    (∀ (tbl : SDict) (doc : Node) (r : Run (Option String)),
      disk_stats tbl doc = .ok r →
      listSetEq r.checked ((tbl.map Prod.fst).map some) = false →
      ∃ sl, (tbl.map Prod.fst).mapM (slotOf tbl) = .ok sl ∧
        r.reqs = [Request.batch (sortStrings sl)]) ∧
    (∀ (tbl : SDict) (doc : Node) (r : Run String), fc_stats 4 tbl doc = .ok r →
      listSetEq r.checked (tbl.map Prod.fst) = false →
      r.reqs = [Request.batch (sortStrings (tbl.map Prod.fst))]) ∧
    (∀ (tbl : SDict) (doc : Node) (r : Run String), fc_stats 3 tbl doc = .ok r →
      listSetEq r.checked (tbl.map Prod.fst) = false →
      r.reqs = (sortStrings
          ((tbl.map Prod.fst).filter (fun p => !r.checked.contains p))).map
        (fun sp => Request.single (strSlice sp 0 1) (strSlice sp 2 3))) := by
  refine ⟨?_, ?_, ?_, ?_⟩
  · intro tbl doc r h hne
    rw [vd_stats_run tbl doc r h]
    unfold vd_reqs
    rw [if_neg (by rw [hne]; simp)]
  · intro tbl doc r h hne
    have hq := disk_stats_run tbl doc r h
    unfold disk_reqs at hq
    rw [if_neg (by rw [hne]; simp)] at hq
    cases hm : (tbl.map Prod.fst).mapM (slotOf tbl) with
    | error e => rw [hm, exceptBindErr] at hq; cases hq
    | ok sl =>
      rw [hm, exceptBindOk] at hq
      exact ⟨sl, rfl, (Except.ok.inj hq).symm⟩
  · intro tbl doc r h hne
    rw [fc_stats_run 4 tbl doc r h]
    unfold fc_reqs fc_enable
    rw [if_neg (by rw [hne]; simp)]
    simp
  · intro tbl doc r h hne
    rw [fc_stats_run 3 tbl doc r h]
    unfold fc_reqs fc_enable
    rw [if_neg (by rw [hne]; simp)]
    simp

/-- C3 (amended) witness: the same concrete polls as the C2 witness,
showing the actual request payloads. -/
theorem enable_requests_name_known_set_w :
    (⟨[], [], [Request.batch ["0", "1"]]⟩ : Run String).reqs =
      [Request.batch (tblTwoVols.map Prod.fst)] ∧
    (∃ sl, (diskTblW.map Prod.fst).mapM (slotOf diskTblW) = .ok sl ∧
      (⟨[(none, [("latency", "3"), ("thruput", "7168")])], [],
        [Request.batch ["9"]]⟩ : Run (Option String)).reqs =
        [Request.batch (sortStrings sl)]) ∧
    (⟨[], [], [Request.batch ["0:0", "1:1"]]⟩ : Run String).reqs =
      [Request.batch (sortStrings (tblFcPorts.map Prod.fst))] ∧
    (⟨[], [], [Request.single "0" "0", Request.single "1" "1"]⟩ :
        Run String).reqs =
      (sortStrings ((tblFcPorts.map Prod.fst).filter
        (fun p => !(([] : List String).contains p)))).map
        (fun sp => Request.single (strSlice sp 0 1) (strSlice sp 2 3)) :=
  ⟨enable_requests_name_known_set.1 tblTwoVols docNoVolStats
      ⟨[], [], [Request.batch ["0", "1"]]⟩ (by decide) (by decide),
   enable_requests_name_known_set.2.1 diskTblW (docUnknownSlot "5")
      ⟨[(none, [("latency", "3"), ("thruput", "7168")])], [],
       [Request.batch ["9"]]⟩ (by decide) (by decide),
   enable_requests_name_known_set.2.2.1 tblFcPorts docFcIdle
      ⟨[], [], [Request.batch ["0:0", "1:1"]]⟩ (by decide) (by decide),
   enable_requests_name_known_set.2.2.2 tblFcPorts docFcIdle
      ⟨[], [], [Request.single "0" "0", Request.single "1" "1"]⟩
      (by decide) (by decide)⟩

end Qsan
